import Mathlib

/-!
Shallow embedding of the authentication core of the Jua Kali skills-matching
platform: the `/api/auth/register` and `/api/auth/login` route handlers
(`backend/routes/authRoutes.js`) and the token-checking middleware.

The JSON Web Token and bcrypt libraries are external dependencies; they are
modelled by their contracts: a signed token carries its claims, its issuance
and expiry instants and the signing secret (standing for the signature), and
verification fails on a secret mismatch or past the expiry.  The hash model
is deterministic (salt uniqueness is not the subject of any theorem here).

Each `pool.query` call in the JavaScript runs as its own auto-committed
statement; the embedding therefore threads the database state through the
handler explicitly, and a `RegFault` argument says which (if any) of the
queries of a register run throws, sending control to the `catch` block with
whatever earlier statements already committed.
-/

namespace JuaKali

/-- The claims object placed under the `user` key of the JWT payload:
`{ id, user_type, email }` (authRoutes.js lines 79-85 and 146-152). -/
structure Claims where
  id : Nat
  user_type : String
  email : String
deriving DecidableEq, Repr

/-- Model of a signed JWT: the embedded claims, issuance and expiry instants
(seconds), and the secret it was signed with (standing for the signature). -/
structure Token where
  claims : Claims
  iat : Nat
  exp : Nat
  secret : String
deriving DecidableEq, Repr

/-- The two verification failures of the token library. -/
inductive VerifyError where
  | expired
  | invalidSignature
deriving DecidableEq, Repr

/-- `jwt.sign(payload, secret, { expiresIn: ttl })` at instant `now`. -/
def jwtSign (c : Claims) (secret : String) (now ttl : Nat) : Token :=
  ⟨c, now, now + ttl, secret⟩

/-- `jwt.verify(token, secret)` at instant `now`: a secret mismatch is
`invalidSignature`; a current time past the embedded expiry is `expired`;
otherwise the embedded claims are returned unmodified. -/
def jwtVerify (t : Token) (secret : String) (now : Nat) : Except VerifyError Claims :=
  if t.secret ≠ secret then .error .invalidSignature
  else if t.exp < now then .error .expired
  else .ok t.claims

/-- Deterministic model of `bcrypt.hash` (work factor and salt elided: no
theorem below concerns salt uniqueness). -/
def bcryptHash (password : String) : String :=
  "bcrypt$2a$10$" ++ password

/-- `bcrypt.compare(password, digest)`. -/
def bcryptCompare (password digest : String) : Bool :=
  digest == bcryptHash password

/-- A row of the `users` table, as touched by the auth routes. -/
structure UserRow where
  id : Nat
  full_name : String
  email : String
  phone_number : String
  password_hash : String
  user_type : String
  location : Option String
deriving DecidableEq, Repr

/-- A row of the `artisan_details` table. -/
structure ArtisanDetailsRow where
  user_id : Nat
  bio : String
  years_experience : Nat
deriving DecidableEq, Repr

/-- A row of the `skills` table. -/
structure SkillRow where
  id : Nat
  name : String
deriving DecidableEq, Repr

/-- A row of the `artisan_skills` join table. -/
structure ArtisanSkillRow where
  artisan_id : Nat
  skill_id : Nat
deriving DecidableEq, Repr

/-- The database state the auth routes read and write. `nextId` is the
sequence backing `users.id` (`RETURNING id`). -/
structure Db where
  users : List UserRow
  artisan_details : List ArtisanDetailsRow
  skills : List SkillRow
  artisan_skills : List ArtisanSkillRow
  nextId : Nat
deriving DecidableEq, Repr

/-- The body of a register request (`req.body`), each field possibly absent. -/
structure RegisterRequest where
  full_name : Option String
  email : Option String
  phone_number : Option String
  password : Option String
  user_type : Option String
  location : Option String
  bio : Option String
  years_experience : Option Nat
  skills : Option (List String)
deriving Repr

/-- JavaScript falsiness of an optional string field: absent or empty. -/
def falsy : Option String → Bool
  | none => true
  | some s => s == ""

/-- Falsiness/emptiness of the `skills` array as the code tests it:
`!skills || !Array.isArray(skills) || skills.length === 0`. -/
def falsyList : Option (List String) → Bool
  | none => true
  | some l => l.isEmpty

/-- A JSON-like value, rich enough for the response bodies of the auth
routes; a signed token is kept structured rather than serialized. -/
inductive JVal where
  | str : String → JVal
  | num : Nat → JVal
  | tok : Token → JVal
  | obj : List (String × JVal) → JVal

/-- An HTTP response: status code and JSON body. -/
structure HttpResponse where
  status : Nat
  body : JVal

/-- `res.status(s).json({ msg })`. -/
def errResp (status : Nat) (msg : String) : HttpResponse :=
  ⟨status, .obj [("msg", .str msg)]⟩

/-- The input validation at the top of `POST /api/auth/register`
(authRoutes.js lines 17-26), returning the error message it responds with,
or `none` when the request passes. -/
def validate (r : RegisterRequest) : Option String :=
  if falsy r.full_name || falsy r.email || falsy r.phone_number
      || falsy r.password || falsy r.user_type then
    some "Please enter all required fields"
  else if !((["client", "artisan"] : List String).contains (r.user_type.getD "")) then
    some "Invalid user type specified"
  else if r.user_type.getD "" == "artisan"
      && (falsy r.location || falsy r.bio || falsyList r.skills) then
    some "Artisan registration requires location, bio, and at least one skill."
  else
    none

/-- Which statement of a register run throws (the `catch` path);
`RegFault.ok` is the fault-free run. -/
inductive RegFault where
  | ok
  | atDupCheck
  | atUserInsert
  | atProfileInsert
  | atSkillSelect
  | atSkillInsert
deriving DecidableEq, Repr

/-- `SELECT id FROM users WHERE email = $1 OR phone_number = $2`. -/
def dupPred (email phone : String) (u : UserRow) : Bool :=
  u.email == email || u.phone_number == phone

/-- The 201 response body of a successful registration
(authRoutes.js lines 93-104); `res.json` drops the `location` key when the
variable is `undefined`. -/
def registerSuccessBody (uid : Nat) (full_name email phone user_type : String)
    (location : Option String) (t : Token) : JVal :=
  .obj [("msg", .str "User registered successfully!"),
        ("token", .tok t),
        ("user", .obj ([("id", .num uid), ("full_name", .str full_name),
                        ("email", .str email), ("phone_number", .str phone),
                        ("user_type", .str user_type)]
          ++ (match location with
              | some l => [("location", .str l)]
              | none => [])))]

/-- The observable outcome of a register run: the response, the database
state left behind, and whether the unmatched-skills `console.warn` fired. -/
structure RegisterOutcome where
  resp : HttpResponse
  db : Db
  warned : Bool

/-- `POST /api/auth/register` (authRoutes.js lines 14-112).  Statements
commit one by one; a fault at a statement jumps to the `catch` block, which
answers 500 without undoing earlier commits. -/
def registerHandler (r : RegisterRequest) (db : Db) (fault : RegFault)
    (now : Nat) (secret : String) : RegisterOutcome :=
  match validate r with
  | some m => ⟨errResp 400 m, db, false⟩
  | none =>
    if fault = RegFault.atDupCheck then ⟨errResp 500 "Server error", db, false⟩
    else
      let email := r.email.getD ""
      let phone := r.phone_number.getD ""
      if 0 < (db.users.filter (dupPred email phone)).length then
        ⟨errResp 400 "User with this email or phone number already exists", db, false⟩
      else
        let password_hash := bcryptHash (r.password.getD "")
        if fault = RegFault.atUserInsert then ⟨errResp 500 "Server error", db, false⟩
        else
          let uid := db.nextId
          let user_type := r.user_type.getD ""
          let newUser : UserRow :=
            ⟨uid, r.full_name.getD "", email, phone, password_hash, user_type, r.location⟩
          let db1 : Db := { db with users := db.users ++ [newUser], nextId := db.nextId + 1 }
          let t := jwtSign ⟨uid, user_type, email⟩ secret now 3600
          let okBody := registerSuccessBody uid (r.full_name.getD "") email phone
            user_type r.location t
          if user_type = "artisan" then
            if fault = RegFault.atProfileInsert then ⟨errResp 500 "Server error", db1, false⟩
            else
              let db2 : Db := { db1 with artisan_details :=
                db1.artisan_details ++ [⟨uid, r.bio.getD "", r.years_experience.getD 0⟩] }
              if fault = RegFault.atSkillSelect then ⟨errResp 500 "Server error", db2, false⟩
              else
                let skills := r.skills.getD []
                let matched := db2.skills.filter (fun sk => skills.contains sk.name)
                let warned := matched.length != skills.length
                if fault = RegFault.atSkillInsert then ⟨errResp 500 "Server error", db2, warned⟩
                else
                  let db3 : Db := { db2 with artisan_skills :=
                    db2.artisan_skills ++ matched.map (fun sk => ⟨uid, sk.id⟩) }
                  ⟨⟨201, okBody⟩, db3, warned⟩
          else
            ⟨⟨201, okBody⟩, db1, false⟩

/-- `POST /api/auth/login` (authRoutes.js lines 115-178).  Reads only; the
success body (lines 160-170) carries no `location` key. -/
def loginHandler (email password : Option String) (db : Db)
    (now : Nat) (secret : String) : HttpResponse :=
  if falsy email || falsy password then errResp 400 "Please enter all fields"
  else
    match db.users.find? (fun u => u.email == email.getD "") with
    | none => errResp 400 "Invalid Credentials"
    | some u =>
      if !bcryptCompare (password.getD "") u.password_hash then
        errResp 400 "Invalid Credentials"
      else
        let t := jwtSign ⟨u.id, u.user_type, u.email⟩ secret now 3600
        ⟨200, .obj [("msg", .str "Logged in successfully!"),
                    ("token", .tok t),
                    ("user", .obj [("id", .num u.id), ("full_name", .str u.full_name),
                                   ("email", .str u.email),
                                   ("phone_number", .str u.phone_number),
                                   ("user_type", .str u.user_type)])]⟩

/-- An inbound request as the middleware sees it: its headers, each carrying
a (structured) token. -/
structure HttpRequest where
  headers : List (String × Token)

/-- `req.header(name)`. -/
def getHeader (hs : List (String × Token)) (name : String) : Option Token :=
  (hs.find? (fun p => p.1 == name)).map (·.2)

/-- What the auth middleware does with a request: deny with a status and
message, or attach the decoded claims as `req.user` and call `next()`. -/
inductive AuthOutcome where
  | denied (status : Nat) (msg : String)
  | authorized (user : Claims)
deriving DecidableEq, Repr

/-- The token-checking middleware (unnamed auth middleware file): reads the
`x-auth-token` header, answers 401 when it is absent, verifies it and maps
every verification failure to the same 401 body. -/
def authMiddleware (req : HttpRequest) (secret : String) (now : Nat) : AuthOutcome :=
  match getHeader req.headers "x-auth-token" with
  | none => .denied 401 "No token, authorization denied"
  | some t =>
    match jwtVerify t secret now with
    | .error _ => .denied 401 "Token is not valid"
    | .ok c => .authorized c

/-- Look a key up in an object body. -/
def bodyField (b : JVal) (k : String) : Option JVal :=
  match b with
  | .obj fs => (fs.find? (fun p => p.1 == k)).map (·.2)
  | _ => none

/-- The token of a response body, when one is present. -/
def bodyToken (b : JVal) : Option Token :=
  match bodyField b "token" with
  | some (.tok t) => some t
  | _ => none

/-- The `msg` string of a response body. -/
def bodyMsg (b : JVal) : Option String :=
  match bodyField b "msg" with
  | some (.str s) => some s
  | _ => none

/-- The keys of an object value. -/
def objKeys : JVal → List String
  | .obj fs => fs.map (·.1)
  | _ => []

/-- The keys of the `user` projection of a response body. -/
def userKeys (b : JVal) : List String :=
  match bodyField b "user" with
  | some u => objKeys u
  | _ => []

/-- Every key of a body, at the top level and inside each nested object
(the auth responses nest exactly one level deep). -/
def allKeys (b : JVal) : List String :=
  match b with
  | .obj fs => fs.map (·.1) ++ (fs.map (fun p => objKeys p.2)).flatten
  | _ => []

/-! ### Concrete fixtures -/

/-- A fully-populated artisan register request. -/
def exReqArtisan : RegisterRequest :=
  ⟨some "Jane Mwangi", some "jane@example.com", some "0712345678", some "pw123",
   some "artisan", some "Nairobi", some "Experienced plumber", some 5, some ["Plumbing"]⟩

/-- A database with no accounts and one skill row. -/
def exDb0 : Db := ⟨[], [], [⟨1, "Plumbing"⟩], [], 1⟩

/-- A database holding one registered artisan account (password `pw123`),
with its profile and skill association. -/
def exDbArtisan : Db :=
  ⟨[⟨1, "Jane Mwangi", "jane@example.com", "0712345678", bcryptHash "pw123",
     "artisan", some "Nairobi"⟩],
   [⟨1, "Experienced plumber", 5⟩], [⟨1, "Plumbing"⟩], [⟨1, 1⟩], 2⟩

end JuaKali

namespace JuaKali

/-! ### C1 — register persistence is not atomic -/

/-- C1: the spec's atomicity claim fails on the code.  Each statement of the
register handler auto-commits on its own; when the `artisan_details` INSERT
throws after the `users` INSERT committed, the handler answers 500 from its
`catch` block and the account row stays persisted with no profile row and no
skill associations. -/
theorem register_artisan_persistence_not_atomic :
    (registerHandler exReqArtisan exDb0 RegFault.atProfileInsert 0 "secret").resp.status = 500
    ∧ (registerHandler exReqArtisan exDb0 RegFault.atProfileInsert 0 "secret").db.users
        = [⟨1, "Jane Mwangi", "jane@example.com", "0712345678",
            bcryptHash "pw123", "artisan", some "Nairobi"⟩]
    ∧ (registerHandler exReqArtisan exDb0 RegFault.atProfileInsert 0 "secret").db.artisan_details = []
    ∧ (registerHandler exReqArtisan exDb0 RegFault.atProfileInsert 0 "secret").db.artisan_skills = [] :=
  ⟨rfl, by decide, by decide, by decide⟩

/-! ### Helper lemmas: the shapes of successful runs -/

/-- A fault-free artisan registration that passes validation and the
duplicate check commits the account, profile and matched-skill rows and
answers 201. -/
theorem registerHandler_artisan_run (r : RegisterRequest) (db : Db) (now : Nat) (secret : String)
    (h1 : validate r = none)
    (h2 : db.users.filter (dupPred (r.email.getD "") (r.phone_number.getD "")) = [])
    (h3 : r.user_type.getD "" = "artisan") :
    registerHandler r db RegFault.ok now secret =
      ⟨⟨201, registerSuccessBody db.nextId (r.full_name.getD "") (r.email.getD "")
              (r.phone_number.getD "") "artisan" r.location
              (jwtSign ⟨db.nextId, "artisan", r.email.getD ""⟩ secret now 3600)⟩,
       ⟨db.users ++ [⟨db.nextId, r.full_name.getD "", r.email.getD "", r.phone_number.getD "",
                      bcryptHash (r.password.getD ""), "artisan", r.location⟩],
        db.artisan_details ++ [⟨db.nextId, r.bio.getD "", r.years_experience.getD 0⟩],
        db.skills,
        db.artisan_skills ++ (db.skills.filter
          (fun sk => (r.skills.getD []).contains sk.name)).map (fun sk => ⟨db.nextId, sk.id⟩),
        db.nextId + 1⟩,
       (db.skills.filter (fun sk => (r.skills.getD []).contains sk.name)).length
         != (r.skills.getD []).length⟩ := by
  unfold registerHandler
  rw [h1]
  simp [h2, h3]

/-- A fault-free non-artisan registration that passes validation and the
duplicate check commits exactly the account row and answers 201. -/
theorem registerHandler_client_run (r : RegisterRequest) (db : Db) (now : Nat) (secret : String)
    (h1 : validate r = none)
    (h2 : db.users.filter (dupPred (r.email.getD "") (r.phone_number.getD "")) = [])
    (h3 : r.user_type.getD "" ≠ "artisan") :
    registerHandler r db RegFault.ok now secret =
      ⟨⟨201, registerSuccessBody db.nextId (r.full_name.getD "") (r.email.getD "")
              (r.phone_number.getD "") (r.user_type.getD "") r.location
              (jwtSign ⟨db.nextId, r.user_type.getD "", r.email.getD ""⟩ secret now 3600)⟩,
       ⟨db.users ++ [⟨db.nextId, r.full_name.getD "", r.email.getD "", r.phone_number.getD "",
                      bcryptHash (r.password.getD ""), r.user_type.getD "", r.location⟩],
        db.artisan_details, db.skills, db.artisan_skills, db.nextId + 1⟩,
       false⟩ := by
  unfold registerHandler
  rw [h1]
  simp [h2, h3]

/-- A login whose email matches a stored account and whose password passes
`bcrypt.compare` answers 200 with the token and the five-field projection. -/
theorem loginHandler_success_run (email password : Option String) (db : Db)
    (now : Nat) (secret : String) (u : UserRow)
    (he : falsy email = false) (hp : falsy password = false)
    (hu : db.users.find? (fun x => x.email == email.getD "") = some u)
    (hc : bcryptCompare (password.getD "") u.password_hash = true) :
    loginHandler email password db now secret =
      ⟨200, .obj [("msg", .str "Logged in successfully!"),
                  ("token", .tok (jwtSign ⟨u.id, u.user_type, u.email⟩ secret now 3600)),
                  ("user", .obj [("id", .num u.id), ("full_name", .str u.full_name),
                                 ("email", .str u.email),
                                 ("phone_number", .str u.phone_number),
                                 ("user_type", .str u.user_type)])]⟩ := by
  unfold loginHandler
  rw [he, hp]
  simp only [Bool.or_self, Bool.false_eq_true, if_false]
  rw [hu]
  simp [hc]

/-! ### C2 — middleware: absent token and both verification failures -/

/-- C2: the middleware reads the token from the `x-auth-token` request
header; with no token it denies with 401 "No token, authorization denied",
and when verification fails it denies with the one 401 "Token is not valid"
body whatever the failure cause (`expired` or `invalidSignature`) was. -/
theorem auth_middleware_unauthenticated_uniform :
    (∀ (req : HttpRequest) (secret : String) (now : Nat),
      getHeader req.headers "x-auth-token" = none →
      authMiddleware req secret now = .denied 401 "No token, authorization denied")
    ∧ (∀ (req : HttpRequest) (t : Token) (e : VerifyError) (secret : String) (now : Nat),
      getHeader req.headers "x-auth-token" = some t →
      jwtVerify t secret now = .error e →
      authMiddleware req secret now = .denied 401 "Token is not valid") := by
  constructor
  · intro req secret now h
    unfold authMiddleware
    rw [h]
  · intro req t e secret now h hv
    simp [authMiddleware, h, hv]

/-- Concrete runs of C2: a request with no token, a token signed with a
different secret, and an expired token; the latter two denials coincide. -/
theorem auth_middleware_unauthenticated_uniform_witness :
    authMiddleware ⟨[]⟩ "secret" 0 = .denied 401 "No token, authorization denied"
    ∧ authMiddleware ⟨[("x-auth-token", jwtSign ⟨1, "client", "a@b.c"⟩ "other" 0 3600)]⟩
        "secret" 10 = .denied 401 "Token is not valid"
    ∧ authMiddleware ⟨[("x-auth-token", jwtSign ⟨1, "client", "a@b.c"⟩ "secret" 0 3600)]⟩
        "secret" 5000 = .denied 401 "Token is not valid" :=
  ⟨auth_middleware_unauthenticated_uniform.1 ⟨[]⟩ "secret" 0 rfl,
   auth_middleware_unauthenticated_uniform.2 _ _ VerifyError.invalidSignature "secret" 10
     rfl rfl,
   auth_middleware_unauthenticated_uniform.2 _ _ VerifyError.expired "secret" 5000
     rfl rfl⟩

/-! ### C3 — login failures are indistinguishable -/

/-- C3: a login whose email matches no account and a login whose password
fails `bcrypt.compare` both answer the identical 400 "Invalid Credentials"
response. -/
theorem login_invalid_credentials_indistinguishable :
    ∀ (email password : Option String) (db : Db) (now : Nat) (secret : String),
      falsy email = false → falsy password = false →
      ((db.users.find? (fun u => u.email == email.getD "") = none →
          loginHandler email password db now secret = errResp 400 "Invalid Credentials")
       ∧ (∀ u : UserRow, db.users.find? (fun u => u.email == email.getD "") = some u →
          bcryptCompare (password.getD "") u.password_hash = false →
          loginHandler email password db now secret = errResp 400 "Invalid Credentials")) := by
  intro email password db now secret he hp
  constructor
  · intro h
    unfold loginHandler
    rw [he, hp]
    simp only [Bool.or_self, Bool.false_eq_true, if_false]
    rw [h]
  · intro u h hc
    unfold loginHandler
    rw [he, hp]
    simp only [Bool.or_self, Bool.false_eq_true, if_false]
    rw [h]
    simp [hc]

/-- Concrete runs of C3: an unregistered email against an empty directory,
and a wrong password against a stored account, produce the same response. -/
theorem login_invalid_credentials_indistinguishable_witness :
    loginHandler (some "ghost@example.com") (some "pw123") exDb0 0 "secret"
      = errResp 400 "Invalid Credentials"
    ∧ loginHandler (some "jane@example.com") (some "wrongpw") exDbArtisan 0 "secret"
      = errResp 400 "Invalid Credentials" :=
  ⟨(login_invalid_credentials_indistinguishable (some "ghost@example.com") (some "pw123")
      exDb0 0 "secret" rfl rfl).1 rfl,
   (login_invalid_credentials_indistinguishable (some "jane@example.com") (some "wrongpw")
      exDbArtisan 0 "secret" rfl rfl).2
     ⟨1, "Jane Mwangi", "jane@example.com", "0712345678", bcryptHash "pw123",
      "artisan", some "Nairobi"⟩ (by decide) (by decide)⟩

/-! ### C10 — login input validation precedes and differs from credentials errors -/

/-- C10: a login with a missing (or empty) email or password answers
400 "Please enter all fields" for every directory state — so before any
lookup — and that body differs from the "Invalid Credentials" one. -/
theorem login_missing_fields_validation_error :
    ∀ email password : Option String,
      (falsy email = true ∨ falsy password = true) →
      ∀ (db : Db) (now : Nat) (secret : String),
        loginHandler email password db now secret = errResp 400 "Please enter all fields"
        ∧ bodyMsg (loginHandler email password db now secret).body
            ≠ bodyMsg (errResp 400 "Invalid Credentials").body := by
  intro email password h db now secret
  have hcond : (falsy email || falsy password) = true := by
    rcases h with h | h <;> simp [h]
  have hrun : loginHandler email password db now secret
      = errResp 400 "Please enter all fields" := by
    unfold loginHandler
    rw [hcond]
    simp
  refine ⟨hrun, ?_⟩
  rw [hrun]
  decide

/-- Concrete run of C10: a login with no password fails with the
validation message on a directory that does hold the account. -/
theorem login_missing_fields_validation_error_witness :
    loginHandler (some "jane@example.com") none exDbArtisan 0 "secret"
      = errResp 400 "Please enter all fields"
    ∧ bodyMsg (loginHandler (some "jane@example.com") none exDbArtisan 0 "secret").body
        ≠ bodyMsg (errResp 400 "Invalid Credentials").body :=
  login_missing_fields_validation_error (some "jane@example.com") none
    (Or.inr rfl) exDbArtisan 0 "secret"

/-! ### C4 — response projections of register and login -/

/-- All keys of the register success body when no location was supplied. -/
theorem allKeys_registerSuccessBody_none (uid : Nat) (fn em ph ut : String) (t : Token) :
    allKeys (registerSuccessBody uid fn em ph ut none t)
      = ["msg", "token", "user", "id", "full_name", "email", "phone_number", "user_type"] :=
  rfl

/-- All keys of the register success body when a location was supplied. -/
theorem allKeys_registerSuccessBody_some (uid : Nat) (fn em ph ut l : String) (t : Token) :
    allKeys (registerSuccessBody uid fn em ph ut (some l) t)
      = ["msg", "token", "user", "id", "full_name", "email", "phone_number", "user_type",
         "location"] :=
  rfl

/-- The register success body carries its token under the `token` key. -/
theorem bodyToken_registerSuccessBody (uid : Nat) (fn em ph ut : String)
    (loc : Option String) (t : Token) :
    bodyToken (registerSuccessBody uid fn em ph ut loc t) = some t := by
  cases loc <;> rfl

/-- The keys of the register success projection: the five base fields, and
`location` exactly when the request supplied one. -/
theorem userKeys_registerSuccessBody (uid : Nat) (fn em ph ut : String)
    (loc : Option String) (t : Token) :
    userKeys (registerSuccessBody uid fn em ph ut loc t)
      = ["id", "full_name", "email", "phone_number", "user_type"]
        ++ (match loc with | some _ => ["location"] | none => []) := by
  cases loc <;> rfl

/-- C4 counterexample: a successful login of the stored artisan answers 200,
but its account projection carries no `location` key — the register and
login projections do not share one shape. -/
theorem login_projection_lacks_location :
    (loginHandler (some "jane@example.com") (some "pw123") exDbArtisan 0 "secret").status = 200
    ∧ userKeys (loginHandler (some "jane@example.com") (some "pw123") exDbArtisan 0 "secret").body
        = ["id", "full_name", "email", "phone_number", "user_type"]
    ∧ "location" ∉
        userKeys (loginHandler (some "jane@example.com") (some "pw123") exDbArtisan 0 "secret").body :=
  ⟨rfl, rfl, by decide⟩

/-- C4 amended: every successful register answers 201 with a token and a
projection keyed {id, full_name, email, phone_number, user_type} plus
`location` when the request supplied one; every successful login answers
200 with a token and the five base keys only; neither body carries a
`password` or `password_hash` key anywhere. -/
theorem auth_response_projection_shapes :
    (∀ (r : RegisterRequest) (db : Db) (now : Nat) (secret : String),
      validate r = none →
      db.users.filter (dupPred (r.email.getD "") (r.phone_number.getD "")) = [] →
      (registerHandler r db RegFault.ok now secret).resp.status = 201
      ∧ (bodyToken (registerHandler r db RegFault.ok now secret).resp.body).isSome = true
      ∧ userKeys (registerHandler r db RegFault.ok now secret).resp.body
          = ["id", "full_name", "email", "phone_number", "user_type"]
            ++ (match r.location with | some _ => ["location"] | none => [])
      ∧ "password" ∉ allKeys (registerHandler r db RegFault.ok now secret).resp.body
      ∧ "password_hash" ∉ allKeys (registerHandler r db RegFault.ok now secret).resp.body)
    ∧ (∀ (email password : Option String) (db : Db) (now : Nat) (secret : String) (u : UserRow),
      falsy email = false → falsy password = false →
      db.users.find? (fun x => x.email == email.getD "") = some u →
      bcryptCompare (password.getD "") u.password_hash = true →
      (loginHandler email password db now secret).status = 200
      ∧ (bodyToken (loginHandler email password db now secret).body).isSome = true
      ∧ userKeys (loginHandler email password db now secret).body
          = ["id", "full_name", "email", "phone_number", "user_type"]
      ∧ "location" ∉ userKeys (loginHandler email password db now secret).body
      ∧ "password" ∉ allKeys (loginHandler email password db now secret).body
      ∧ "password_hash" ∉ allKeys (loginHandler email password db now secret).body) := by
  constructor
  · intro r db now secret h1 h2
    by_cases h3 : r.user_type.getD "" = "artisan"
    · rw [registerHandler_artisan_run r db now secret h1 h2 h3]
      refine ⟨rfl, ?_, ?_, ?_, ?_⟩
      · rw [bodyToken_registerSuccessBody]; rfl
      · rw [userKeys_registerSuccessBody]
      · cases r.location with
        | none => rw [allKeys_registerSuccessBody_none]; decide
        | some l => rw [allKeys_registerSuccessBody_some]; decide
      · cases r.location with
        | none => rw [allKeys_registerSuccessBody_none]; decide
        | some l => rw [allKeys_registerSuccessBody_some]; decide
    · rw [registerHandler_client_run r db now secret h1 h2 h3]
      refine ⟨rfl, ?_, ?_, ?_, ?_⟩
      · rw [bodyToken_registerSuccessBody]; rfl
      · rw [userKeys_registerSuccessBody]
      · cases r.location with
        | none => rw [allKeys_registerSuccessBody_none]; decide
        | some l => rw [allKeys_registerSuccessBody_some]; decide
      · cases r.location with
        | none => rw [allKeys_registerSuccessBody_none]; decide
        | some l => rw [allKeys_registerSuccessBody_some]; decide
  · intro email password db now secret u he hp hu hc
    rw [loginHandler_success_run email password db now secret u he hp hu hc]
    refine ⟨rfl, rfl, rfl, ?_, ?_, ?_⟩
    · show "location" ∉ ["id", "full_name", "email", "phone_number", "user_type"]
      decide
    · show "password" ∉
        ["msg", "token", "user", "id", "full_name", "email", "phone_number", "user_type"]
      decide
    · show "password_hash" ∉
        ["msg", "token", "user", "id", "full_name", "email", "phone_number", "user_type"]
      decide

/-- Concrete runs of the amended C4: the artisan registration on the empty
directory, and the stored artisan's login. -/
theorem auth_response_projection_shapes_witness :
    ((registerHandler exReqArtisan exDb0 RegFault.ok 0 "secret").resp.status = 201
      ∧ (bodyToken (registerHandler exReqArtisan exDb0 RegFault.ok 0 "secret").resp.body).isSome = true
      ∧ userKeys (registerHandler exReqArtisan exDb0 RegFault.ok 0 "secret").resp.body
          = ["id", "full_name", "email", "phone_number", "user_type", "location"]
      ∧ "password" ∉ allKeys (registerHandler exReqArtisan exDb0 RegFault.ok 0 "secret").resp.body
      ∧ "password_hash" ∉ allKeys (registerHandler exReqArtisan exDb0 RegFault.ok 0 "secret").resp.body)
    ∧ ((loginHandler (some "jane@example.com") (some "pw123") exDbArtisan 0 "secret").status = 200
      ∧ (bodyToken (loginHandler (some "jane@example.com") (some "pw123") exDbArtisan 0 "secret").body).isSome = true
      ∧ userKeys (loginHandler (some "jane@example.com") (some "pw123") exDbArtisan 0 "secret").body
          = ["id", "full_name", "email", "phone_number", "user_type"]
      ∧ "location" ∉ userKeys (loginHandler (some "jane@example.com") (some "pw123") exDbArtisan 0 "secret").body
      ∧ "password" ∉ allKeys (loginHandler (some "jane@example.com") (some "pw123") exDbArtisan 0 "secret").body
      ∧ "password_hash" ∉ allKeys (loginHandler (some "jane@example.com") (some "pw123") exDbArtisan 0 "secret").body) :=
  ⟨auth_response_projection_shapes.1 exReqArtisan exDb0 0 "secret" rfl rfl,
   auth_response_projection_shapes.2 (some "jane@example.com") (some "pw123")
     exDbArtisan 0 "secret"
     ⟨1, "Jane Mwangi", "jane@example.com", "0712345678", bcryptHash "pw123",
      "artisan", some "Nairobi"⟩ rfl rfl (by decide) (by decide)⟩

/-! ### C5 — register input validation precedes persistence -/

/-- The invalid-register condition as the claim words it: a required field
missing, a role outside {client, artisan}, or an artisan request with an
empty location, an empty bio, or fewer than one skill. -/
def specInvalidRegister (r : RegisterRequest) : Prop :=
  falsy r.full_name = true ∨ falsy r.email = true ∨ falsy r.phone_number = true
  ∨ falsy r.password = true ∨ falsy r.user_type = true
  ∨ r.user_type.getD "" ∉ (["client", "artisan"] : List String)
  ∨ (r.user_type = some "artisan"
      ∧ (falsy r.location = true ∨ falsy r.bio = true ∨ (r.skills.getD []).length < 1))

/-- The three messages `validate` can answer with. -/
theorem validate_msgs (r : RegisterRequest) (m : String) (h : validate r = some m) :
    m ∈ ["Please enter all required fields", "Invalid user type specified",
         "Artisan registration requires location, bio, and at least one skill."] := by
  unfold validate at h
  split_ifs at h <;> simp_all

/-- A request satisfying the claim's invalid condition does not pass
`validate`. -/
theorem specInvalid_validate_some (r : RegisterRequest) (h : specInvalidRegister r) :
    validate r ≠ none := by
  intro hv
  unfold validate at hv
  split_ifs at hv with hA hB hC
  have hA5 := hA
  simp only [Bool.or_eq_true, not_or] at hA5
  obtain ⟨⟨⟨⟨hfn, hem⟩, hph⟩, hpw⟩, hut⟩ := hA5
  rcases h with h | h | h | h | h | h | h
  · exact hfn h
  · exact hem h
  · exact hph h
  · exact hpw h
  · exact hut h
  · refine h ?_
    have hB2 : (["client", "artisan"] : List String).contains (r.user_type.getD "") = true := by
      revert hB
      cases (["client", "artisan"] : List String).contains (r.user_type.getD "") <;> simp
    exact List.mem_of_elem_eq_true hB2
  · obtain ⟨hart, hrest⟩ := h
    have hgd : r.user_type.getD "" = "artisan" := by rw [hart]; rfl
    have hC2 : (falsy r.location || falsy r.bio || falsyList r.skills) = false := by
      revert hC
      rw [hgd]
      cases (falsy r.location || falsy r.bio || falsyList r.skills) <;> simp
    simp only [Bool.or_eq_false_iff] at hC2
    obtain ⟨⟨hl, hb⟩, hsk⟩ := hC2
    rcases hrest with h | h | h
    · rw [h] at hl; cases hl
    · rw [h] at hb; cases hb
    · cases hsks : r.skills with
      | none => rw [hsks] at hsk; cases hsk
      | some l =>
        rw [hsks] at hsk h
        simp only [falsyList, List.isEmpty_eq_false_iff_exists_mem] at hsk
        simp only [Option.getD_some] at h
        obtain ⟨x, hx⟩ := hsk
        have := List.length_pos.mpr (List.ne_nil_of_mem hx)
        omega

/-- C5: a register request that is invalid in any of the ways the claim
lists fails with a 400 validation message, for every database state and
every fault schedule — so before any directory read or write. -/
theorem register_validation_before_persistence :
    ∀ r : RegisterRequest, specInvalidRegister r →
      ∃ m, validate r = some m
        ∧ m ∈ ["Please enter all required fields", "Invalid user type specified",
               "Artisan registration requires location, bio, and at least one skill."]
        ∧ ∀ (db : Db) (fault : RegFault) (now : Nat) (secret : String),
            registerHandler r db fault now secret = ⟨errResp 400 m, db, false⟩ := by
  intro r h
  obtain ⟨m, hm⟩ := Option.ne_none_iff_exists'.mp (specInvalid_validate_some r h)
  refine ⟨m, hm, validate_msgs r m hm, ?_⟩
  intro db fault now secret
  unfold registerHandler
  rw [hm]

/-- Concrete run of C5: an artisan request with an empty skills list fails
with the artisan validation message on every database and fault schedule;
shown here on a populated directory with a would-be-failing duplicate
check. -/
theorem register_validation_before_persistence_witness :
    registerHandler
      ⟨some "Jane Mwangi", some "jane@example.com", some "0712345678", some "pw123",
       some "artisan", some "Nairobi", some "Experienced plumber", some 5, some []⟩
      exDbArtisan RegFault.atDupCheck 5 "secret"
      = ⟨errResp 400 "Artisan registration requires location, bio, and at least one skill.",
         exDbArtisan, false⟩ := by
  obtain ⟨m, hm, hmem, hall⟩ := register_validation_before_persistence
    ⟨some "Jane Mwangi", some "jane@example.com", some "0712345678", some "pw123",
     some "artisan", some "Nairobi", some "Experienced plumber", some 5, some []⟩
    (Or.inr (Or.inr (Or.inr (Or.inr (Or.inr (Or.inr ⟨rfl, Or.inr (Or.inr (by decide))⟩))))))
  have hm3 : m = "Artisan registration requires location, bio, and at least one skill." := by
    have hv : validate
        ⟨some "Jane Mwangi", some "jane@example.com", some "0712345678", some "pw123",
         some "artisan", some "Nairobi", some "Experienced plumber", some 5, some []⟩
        = some "Artisan registration requires location, bio, and at least one skill." := by
      decide
    rw [hm] at hv
    exact Option.some.inj hv
  rw [hm3] at hall
  exact hall exDbArtisan RegFault.atDupCheck 5 "secret"

/-! ### C6 — duplicate email or phone -/

/-- C6 counterexample: a register request whose email equals a stored
account's email but whose `full_name` is absent fails with the required
fields message, not the duplicate-account message — the claim's
"regardless of how all the other fields vary" does not hold. -/
theorem register_duplicate_without_required_fields_not_conflict :
    registerHandler
      ⟨none, some "jane@example.com", some "0799000000", some "pw", some "client",
       none, none, none, none⟩
      exDbArtisan RegFault.ok 0 "secret"
      = ⟨errResp 400 "Please enter all required fields", exDbArtisan, false⟩
    ∧ bodyMsg (registerHandler
        ⟨none, some "jane@example.com", some "0799000000", some "pw", some "client",
         none, none, none, none⟩
        exDbArtisan RegFault.ok 0 "secret").resp.body
      ≠ some "User with this email or phone number already exists" :=
  ⟨rfl, by decide⟩

/-- C6 amended: a register request that passes input validation and whose
email or phone number equals that of a stored account fails with the
duplicate-account message, leaving the directory unchanged, whatever its
other fields hold. -/
theorem register_duplicate_conflict (r : RegisterRequest) (db : Db)
    (now : Nat) (secret : String)
    (h1 : validate r = none) (u : UserRow) (hu : u ∈ db.users)
    (hdup : u.email = r.email.getD "" ∨ u.phone_number = r.phone_number.getD "") :
    registerHandler r db RegFault.ok now secret
      = ⟨errResp 400 "User with this email or phone number already exists", db, false⟩ := by
  have hpred : dupPred (r.email.getD "") (r.phone_number.getD "") u = true := by
    rcases hdup with h | h <;> simp [dupPred, h]
  have hmem : u ∈ db.users.filter (dupPred (r.email.getD "") (r.phone_number.getD "")) :=
    List.mem_filter.mpr ⟨hu, hpred⟩
  have hpos : 0 < (db.users.filter (dupPred (r.email.getD "") (r.phone_number.getD ""))).length :=
    List.length_pos.mpr (List.ne_nil_of_mem hmem)
  unfold registerHandler
  rw [h1]
  simp [hpos]

/-- Concrete run of the amended C6: a valid client request reusing the
stored artisan's email fails with the duplicate-account message. -/
theorem register_duplicate_conflict_witness :
    registerHandler
      ⟨some "Someone Else", some "jane@example.com", some "0700000001", some "pw",
       some "client", none, none, none, none⟩
      exDbArtisan RegFault.ok 0 "secret"
      = ⟨errResp 400 "User with this email or phone number already exists",
         exDbArtisan, false⟩ :=
  register_duplicate_conflict
    ⟨some "Someone Else", some "jane@example.com", some "0700000001", some "pw",
     some "client", none, none, none, none⟩
    exDbArtisan 0 "secret" rfl
    ⟨1, "Jane Mwangi", "jane@example.com", "0712345678", bcryptHash "pw123",
     "artisan", some "Nairobi"⟩
    (by decide) (Or.inl rfl)

/-! ### C7 — every issued token lives exactly one hour -/

/-- Verifying a signed token with its own secret at or before expiry
returns the embedded claims. -/
theorem jwtVerify_jwtSign_ok (c : Claims) (secret : String) (iat ttl now : Nat)
    (h : now ≤ iat + ttl) :
    jwtVerify (jwtSign c secret iat ttl) secret now = .ok c := by
  simp [jwtVerify, jwtSign, Nat.not_lt.mpr h]

/-- Verifying a signed token with its own secret after expiry fails with
`expired`. -/
theorem jwtVerify_jwtSign_expired (c : Claims) (secret : String) (iat ttl now : Nat)
    (h : iat + ttl < now) :
    jwtVerify (jwtSign c secret iat ttl) secret now = .error .expired := by
  simp [jwtVerify, jwtSign, h]

/-- C7: the token of every successful register and every successful login
is issued with expiry exactly one hour after issuance; it verifies at
T+59min and fails with `expired` at T+61min. -/
theorem tokens_expire_after_one_hour :
    (∀ (r : RegisterRequest) (db : Db) (now : Nat) (secret : String) (t : Token),
      validate r = none →
      db.users.filter (dupPred (r.email.getD "") (r.phone_number.getD "")) = [] →
      bodyToken (registerHandler r db RegFault.ok now secret).resp.body = some t →
      t.iat = now ∧ t.exp = now + 3600
      ∧ jwtVerify t secret (now + 59 * 60) = .ok t.claims
      ∧ jwtVerify t secret (now + 61 * 60) = .error .expired)
    ∧ (∀ (email password : Option String) (db : Db) (now : Nat) (secret : String)
        (u : UserRow) (t : Token),
      falsy email = false → falsy password = false →
      db.users.find? (fun x => x.email == email.getD "") = some u →
      bcryptCompare (password.getD "") u.password_hash = true →
      bodyToken (loginHandler email password db now secret).body = some t →
      t.iat = now ∧ t.exp = now + 3600
      ∧ jwtVerify t secret (now + 59 * 60) = .ok t.claims
      ∧ jwtVerify t secret (now + 61 * 60) = .error .expired) := by
  constructor
  · intro r db now secret t h1 h2 ht
    by_cases h3 : r.user_type.getD "" = "artisan"
    · rw [registerHandler_artisan_run r db now secret h1 h2 h3] at ht
      simp only [bodyToken_registerSuccessBody] at ht
      obtain rfl := Option.some.inj ht
      exact ⟨rfl, rfl,
        jwtVerify_jwtSign_ok _ secret now 3600 (now + 59 * 60) (by omega),
        jwtVerify_jwtSign_expired _ secret now 3600 (now + 61 * 60) (by omega)⟩
    · rw [registerHandler_client_run r db now secret h1 h2 h3] at ht
      simp only [bodyToken_registerSuccessBody] at ht
      obtain rfl := Option.some.inj ht
      exact ⟨rfl, rfl,
        jwtVerify_jwtSign_ok _ secret now 3600 (now + 59 * 60) (by omega),
        jwtVerify_jwtSign_expired _ secret now 3600 (now + 61 * 60) (by omega)⟩
  · intro email password db now secret u t he hp hu hc ht
    rw [loginHandler_success_run email password db now secret u he hp hu hc] at ht
    have hbt : bodyToken (JVal.obj
        [("msg", JVal.str "Logged in successfully!"),
         ("token", JVal.tok (jwtSign ⟨u.id, u.user_type, u.email⟩ secret now 3600)),
         ("user", JVal.obj [("id", JVal.num u.id), ("full_name", JVal.str u.full_name),
                            ("email", JVal.str u.email),
                            ("phone_number", JVal.str u.phone_number),
                            ("user_type", JVal.str u.user_type)])])
        = some (jwtSign ⟨u.id, u.user_type, u.email⟩ secret now 3600) := rfl
    rw [hbt] at ht
    obtain rfl := Option.some.inj ht
    exact ⟨rfl, rfl,
      jwtVerify_jwtSign_ok _ secret now 3600 (now + 59 * 60) (by omega),
      jwtVerify_jwtSign_expired _ secret now 3600 (now + 61 * 60) (by omega)⟩

/-- Concrete run of C7: the token of the artisan registration on the empty
directory, issued at T = 1000. -/
theorem tokens_expire_after_one_hour_witness :
    (jwtSign ⟨1, "artisan", "jane@example.com"⟩ "secret" 1000 3600).iat = 1000
    ∧ (jwtSign ⟨1, "artisan", "jane@example.com"⟩ "secret" 1000 3600).exp = 1000 + 3600
    ∧ jwtVerify (jwtSign ⟨1, "artisan", "jane@example.com"⟩ "secret" 1000 3600) "secret"
        (1000 + 59 * 60)
        = .ok (jwtSign ⟨1, "artisan", "jane@example.com"⟩ "secret" 1000 3600).claims
    ∧ jwtVerify (jwtSign ⟨1, "artisan", "jane@example.com"⟩ "secret" 1000 3600) "secret"
        (1000 + 61 * 60) = .error .expired :=
  tokens_expire_after_one_hour.1 exReqArtisan exDb0 1000 "secret"
    (jwtSign ⟨1, "artisan", "jane@example.com"⟩ "secret" 1000 3600) rfl rfl rfl

/-! ### C8 — round-trip of issued claims through verification and the middleware -/

/-- C8: a token issued over claims verifies (with the same secret, at or
before expiry) to exactly those claims, and a request presenting it has
exactly those claims attached as `req.user` by the middleware. -/
theorem token_roundtrip_claims_attached :
    (∀ (c : Claims) (secret : String) (iat ttl now : Nat), now ≤ iat + ttl →
      jwtVerify (jwtSign c secret iat ttl) secret now = .ok c)
    ∧ (∀ (c : Claims) (secret : String) (iat ttl now : Nat)
        (rest : List (String × Token)), now ≤ iat + ttl →
      authMiddleware ⟨("x-auth-token", jwtSign c secret iat ttl) :: rest⟩ secret now
        = .authorized c) := by
  constructor
  · intro c secret iat ttl now h
    exact jwtVerify_jwtSign_ok c secret iat ttl now h
  · intro c secret iat ttl now rest h
    have hh : getHeader (("x-auth-token", jwtSign c secret iat ttl) :: rest) "x-auth-token"
        = some (jwtSign c secret iat ttl) := rfl
    simp [authMiddleware, hh, jwtVerify_jwtSign_ok c secret iat ttl now h]

/-- Concrete run of C8: claims {id 7, role artisan, email} survive the
round trip and are attached by the middleware. -/
theorem token_roundtrip_claims_attached_witness :
    jwtVerify (jwtSign ⟨7, "artisan", "jane@example.com"⟩ "secret" 100 3600) "secret" 2000
      = .ok ⟨7, "artisan", "jane@example.com"⟩
    ∧ authMiddleware ⟨[("x-auth-token", jwtSign ⟨7, "artisan", "jane@example.com"⟩
        "secret" 100 3600)]⟩ "secret" 2000
      = .authorized ⟨7, "artisan", "jane@example.com"⟩ :=
  ⟨token_roundtrip_claims_attached.1 ⟨7, "artisan", "jane@example.com"⟩ "secret" 100 3600
     2000 (by omega),
   token_roundtrip_claims_attached.2 ⟨7, "artisan", "jane@example.com"⟩ "secret" 100 3600
     2000 [] (by omega)⟩

/-! ### C9 — unmatched skill names soft-fail -/

/-- If some requested name matches no row of a duplicate-free skills table,
the matched rows number strictly fewer than the requested names. -/
theorem length_filter_lt_of_unmatched (T : List SkillRow) (S : List String)
    (hn : (T.map SkillRow.name).Nodup) (s : String) (hs : s ∈ S)
    (hns : s ∉ T.map SkillRow.name) :
    (T.filter (fun sk => S.contains sk.name)).length < S.length := by
  classical
  set M := (T.filter (fun sk => S.contains sk.name)).map SkillRow.name with hM
  have hsubT : M ⊆ T.map SkillRow.name := by
    intro x hx
    rw [hM] at hx
    obtain ⟨sk, hsk, rfl⟩ := List.mem_map.mp hx
    exact List.mem_map.mpr ⟨sk, (List.mem_filter.mp hsk).1, rfl⟩
  have hMnd : M.Nodup := hn.sublist ((List.filter_sublist _).map SkillRow.name)
  have hMsubS : M ⊆ S := by
    intro x hx
    rw [hM] at hx
    obtain ⟨sk, hsk, rfl⟩ := List.mem_map.mp hx
    exact List.mem_of_elem_eq_true (List.mem_filter.mp hsk).2
  have hsM : s ∉ M := fun h => hns (hsubT h)
  have hcons : (s :: M).Nodup := List.nodup_cons.mpr ⟨hsM, hMnd⟩
  have hconsS : (s :: M) ⊆ S := by
    intro x hx
    rcases List.mem_cons.mp hx with rfl | hx
    · exact hs
    · exact hMsubS hx
  have hlen : (s :: M).length ≤ S.length :=
    (List.subperm_of_subset hcons hconsS).length_le
  have h1 : M.length + 1 ≤ S.length := by simpa using hlen
  have h2 : M.length = (T.filter (fun sk => S.contains sk.name)).length := by
    rw [hM, List.length_map]
  omega

/-- C9: an artisan registration whose skills list holds names absent from a
duplicate-free skills table still succeeds with 201; the warning fires, and
exactly the rows whose names matched are associated to the new artisan. -/
theorem register_unmatched_skills_soft_success :
    ∀ (r : RegisterRequest) (db : Db) (now : Nat) (secret : String),
      validate r = none →
      db.users.filter (dupPred (r.email.getD "") (r.phone_number.getD "")) = [] →
      r.user_type.getD "" = "artisan" →
      (db.skills.map SkillRow.name).Nodup →
      (∃ s ∈ r.skills.getD [], s ∉ db.skills.map SkillRow.name) →
      (registerHandler r db RegFault.ok now secret).resp.status = 201
      ∧ (registerHandler r db RegFault.ok now secret).warned = true
      ∧ (registerHandler r db RegFault.ok now secret).db.artisan_skills
          = db.artisan_skills
            ++ (db.skills.filter (fun sk => (r.skills.getD []).contains sk.name)).map
                (fun sk => ⟨db.nextId, sk.id⟩) := by
  intro r db now secret h1 h2 h3 hnd hex
  obtain ⟨s, hs, hns⟩ := hex
  rw [registerHandler_artisan_run r db now secret h1 h2 h3]
  refine ⟨rfl, ?_, rfl⟩
  have hlt := length_filter_lt_of_unmatched db.skills (r.skills.getD []) hnd s hs hns
  show ((db.skills.filter (fun sk => (r.skills.getD []).contains sk.name)).length
      != (r.skills.getD []).length) = true
  rw [bne_iff_ne]
  omega

/-- A register request listing one matched and one unmatched skill name. -/
def exReqMixedSkills : RegisterRequest :=
  ⟨some "Jane Mwangi", some "jane@example.com", some "0712345678", some "pw123",
   some "artisan", some "Nairobi", some "Experienced plumber", some 5,
   some ["Plumbing", "Quantum Mechanics"]⟩

/-- Concrete run of C9: requesting {Plumbing, Quantum Mechanics} against a
table holding only Plumbing succeeds, warns, and associates Plumbing only. -/
theorem register_unmatched_skills_soft_success_witness :
    (registerHandler exReqMixedSkills exDb0 RegFault.ok 0 "secret").resp.status = 201
    ∧ (registerHandler exReqMixedSkills exDb0 RegFault.ok 0 "secret").warned = true
    ∧ (registerHandler exReqMixedSkills exDb0 RegFault.ok 0 "secret").db.artisan_skills
        = [] ++ (exDb0.skills.filter
            (fun sk => (exReqMixedSkills.skills.getD []).contains sk.name)).map
            (fun sk => ⟨exDb0.nextId, sk.id⟩) :=
  register_unmatched_skills_soft_success exReqMixedSkills exDb0 0 "secret" rfl rfl rfl
    (by decide) ⟨"Quantum Mechanics", by decide, by decide⟩

end JuaKali
